import Mathlib

/-!
Verification of the remix-response library (src/index.ts) against its
natural-language specification.

The library builds HTTP-like response objects from a mapping of field
names to values, where values may be pending asynchronous computations
(promises). We model a promise by its eventual settled outcome
(fulfilled value or rejection reason): the host event loop guarantees a
promise settles at most once, so every observer of the same promise sees
the same outcome. JavaScript plain values that can appear in a mapping
are modelled by the inductive `Val`, with a dedicated constructor for
Error instances (whose enumerable-own-property JSON serialization is
`\x7b\x7d`, and which `errorReplacer` expands).
-/

set_option autoImplicit false

namespace RemixResponse

/-- JavaScript values that can appear as mapping values, fulfilled values
or rejection reasons: null, booleans, numbers, strings, arrays, plain
objects (ordered fields, as JS object insertion order), and Error
instances carrying a name and a message. -/
inductive Val where
  | null
  | bool (b : Bool)
  | num (n : Int)
  | str (s : String)
  | arr (elems : List Val)
  | obj (fields : List (String × Val))
  | err (name message : String)
deriving Repr

/-- JSON string escaping for one character (the escapes JSON.stringify
produces for the characters our development uses). -/
def escapeChar (c : Char) : String :=
  if c = '"' then "\\\""
  else if c = '\\' then "\\\\"
  else if c = '\n' then "\\n"
  else if c = '\t' then "\\t"
  else if c = '\r' then "\\r"
  else String.singleton c

/-- JSON string escaping. -/
def escapeStr (s : String) : String :=
  String.join (s.data.map escapeChar)

mutual
/-- JSON.stringify without a replacer. An Error instance serializes as
the empty object (its message and name are non-enumerable own
properties, so plain stringify sees no fields). -/
def encode : Val → String
  | .null => "null"
  | .bool true => "true"
  | .bool false => "false"
  | .num n => toString n
  | .str s => "\"" ++ escapeStr s ++ "\""
  | .arr xs => "[" ++ encodeList xs ++ "]"
  | .obj fs => "\x7b" ++ encodeFields fs ++ "\x7d"
  | .err _ _ => "\x7b\x7d"

/-- Comma-separated encoding of array elements. -/
def encodeList : List Val → String
  | [] => ""
  | [x] => encode x
  | x :: y :: xs => encode x ++ "," ++ encodeList (y :: xs)

/-- Comma-separated encoding of object fields. -/
def encodeFields : List (String × Val) → String
  | [] => ""
  | [p] => "\"" ++ escapeStr p.1 ++ "\":" ++ encode p.2
  | p :: q :: ps =>
      "\"" ++ escapeStr p.1 ++ "\":" ++ encode p.2 ++ "," ++ encodeFields (q :: ps)
end

/-- The source's errorReplacer, as passed to JSON.stringify: an Error
instance is replaced by the object with message, name and isError fields
(in that insertion order); any other value is returned unchanged. -/
def errorReplacer : Val → Val
  | .err n m => .obj [("message", .str m), ("name", .str n), ("isError", .bool true)]
  | v => v

mutual
/-- The action of JSON.stringify with errorReplacer on the value tree:
the replacer is consulted for every value in the tree, so Error
instances are expanded wherever they occur; everything else is kept and
recursed into. -/
def replaceErrors : Val → Val
  | .err n m => .obj [("message", .str m), ("name", .str n), ("isError", .bool true)]
  | .arr xs => .arr (replaceErrorsList xs)
  | .obj fs => .obj (replaceErrorsFields fs)
  | .null => .null
  | .bool b => .bool b
  | .num n => .num n
  | .str s => .str s

/-- replaceErrors mapped over array elements. -/
def replaceErrorsList : List Val → List Val
  | [] => []
  | x :: xs => replaceErrors x :: replaceErrorsList xs

/-- replaceErrors mapped over object fields. -/
def replaceErrorsFields : List (String × Val) → List (String × Val)
  | [] => []
  | p :: ps => (p.1, replaceErrors p.2) :: replaceErrorsFields ps
end

mutual
/-- Whether a value contains no Error instance anywhere (such a value is
untouched by the replacer). -/
def errFree : Val → Bool
  | .err _ _ => false
  | .arr xs => errFreeList xs
  | .obj fs => errFreeFields fs
  | _ => true

/-- errFree over array elements. -/
def errFreeList : List Val → Bool
  | [] => true
  | x :: xs => errFree x && errFreeList xs

/-- errFree over object fields. -/
def errFreeFields : List (String × Val) → Bool
  | [] => true
  | p :: ps => errFree p.2 && errFreeFields ps
end

/-- The settled outcome of a pending computation (promise): it either
fulfills with a value or rejects with a reason. -/
inductive Outcome where
  | fulfilled (v : Val)
  | rejected (reason : Val)
deriving Repr

/-- One value of a Field Mapping: either a plain (non-promise) value or
a pending computation, modelled by its eventual outcome. -/
inductive Entry where
  | plain (v : Val)
  | pending (o : Outcome)
deriving Repr

/-- A Field Mapping: ordered key/value pairs, as a JS object's insertion
order. -/
abbrev Mapping := List (String × Entry)

/-- How Promise.all / Promise.allSettled observe one mapping value: a
non-promise value is treated as already fulfilled with itself; a promise
contributes its settled outcome. -/
def settleEntry : Entry → Outcome
  | .plain v => .fulfilled v
  | .pending o => o

/-- The source's hash: Promise.all over the mapping's values, re-keyed.
Fail-fast: if every value fulfills the result maps each key to its
fulfilled value; if any value rejects the whole operation rejects. -/
def hash : Mapping → Option (List (String × Val))
  | [] => some []
  | p :: rest =>
      match settleEntry p.2 with
      | .fulfilled v => (hash rest).map (fun m => (p.1, v) :: m)
      | .rejected _ => none

/-- The JSON object Promise.allSettled produces for one outcome:
status/value for fulfilled, status/reason for rejected. -/
def recordVal : Outcome → Val
  | .fulfilled v => .obj [("status", .str "fulfilled"), ("value", v)]
  | .rejected r => .obj [("status", .str "rejected"), ("reason", r)]

/-- The source's hashSettled: Promise.allSettled over the mapping's
values, re-keyed. Never fails; every key maps to its settlement
record. -/
def hashSettled (data : Mapping) : List (String × Val) :=
  data.map (fun p => (p.1, recordVal (settleEntry p.2)))

/-- The value serialized into the settle-each body:
JSON.stringify(hashSettled result, errorReplacer), before encoding. -/
def settledVal (data : Mapping) : Val :=
  replaceErrors (.obj (hashSettled data))

/-- The settle-each body string pushed into the provisional stream and
used for the rejection response. -/
def settledBody (data : Mapping) : String :=
  encode (settledVal data)

/-- Every mapping value, settled: pending computations replaced by their
outcome's payload (fulfilled value, or rejection reason when rejected;
the latter case is only reached under an all-fulfilled hypothesis). -/
def resolvedMap (data : Mapping) : List (String × Val) :=
  data.map (fun p =>
    (p.1, match settleEntry p.2 with
          | .fulfilled v => v
          | .rejected r => r))

/-- Whether every value of the mapping settles fulfilled. -/
def allFulfilled (data : Mapping) : Bool :=
  data.all (fun p =>
    match settleEntry p.2 with
    | .fulfilled _ => true
    | .rejected _ => false)

/-- Whether the mapping contains no pending computation at all. -/
def noPending (data : Mapping) : Bool :=
  data.all (fun p =>
    match p.2 with
    | .plain _ => true
    | .pending _ => false)

/-- The optional secondary configuration object (ResponseInit without
status, per the TS type). We also model a runtime status field, since a
caller can pass one despite the type: makeResponse spreads init before
writing status, so such a field is always overridden. -/
structure Init where
  headers : List (String × String) := []
  statusText : Option String := none
  status : Option Nat := none
deriving Repr, DecidableEq

/-- A response object as the host Response constructor produces it:
status, statusText, header entries (plain-object insertion order), and
an optional body string (none models a null body; for the deferred
response the string is the body the stream eventually carries). -/
structure Response where
  status : Nat
  statusText : String := ""
  headers : List (String × String) := []
  body : Option String := none
deriving Repr, DecidableEq

/-- JS object-spread update: writing key k after spreading l replaces
the value at k in place if k is present, else appends the entry. -/
def setKey (l : List (String × String)) (k v : String) : List (String × String) :=
  if l.any (fun p => p.1 = k) then
    l.map (fun p => if p.1 = k then (k, v) else p)
  else
    l ++ [(k, v)]

/-- The source's makeResponse: new Response(body, spread of init with
status written after it and a headers object that spreads init's
headers and then writes Content-Type). The status and Content-Type
written after the spreads always win. -/
def makeResponse (status : Nat) (body : Option String) (init : Init) : Response :=
  { status := status
    statusText := init.statusText.getD ""
    headers := setKey init.headers "Content-Type" "application/json; charset=utf-8"
    body := body }

/-- The source's responseFunction, as the synchronously returned
response: status and headers from makeResponse, body the provisional
stream that is eventually filled with the settle-each JSON (hashSettled
serialized with errorReplacer). -/
def responseFunction (status : Nat) (data : Mapping) (init : Init := {}) : Response :=
  makeResponse status (some (settledBody data)) init

/-- The source's then-handler (await path): hash the mapping; on success
resolve with a new response of the same status whose body is
JSON.stringify of the fail-fast result; on failure reject with a new
response of status 500 whose body is the settle-each JSON. -/
def awaitResponse (status : Nat) (data : Mapping) (init : Init := {}) :
    Except Response Response :=
  match hash data with
  | some m => .ok (makeResponse status (some (encode (.obj m))) init)
  | none => .error (makeResponse 500 (some (settledBody data)) init)

/-- A response value tagged with an allocation identity: each evaluation
of new Response in the source creates a distinct object; the id records
which allocation produced the value. -/
structure ResponseObj where
  id : Nat
  val : Response
deriving Repr, DecidableEq

/-- One full run of responseFunction together with its await path: the
originally constructed response (allocation 0) and the response the
then-handler later produces (a second new Response, allocation 1),
resolved or rejected. -/
def buildDeferred (status : Nat) (data : Mapping) (init : Init := {}) :
    ResponseObj × Except ResponseObj ResponseObj :=
  (⟨0, responseFunction status data init⟩,
   match awaitResponse status data init with
   | .ok r => .ok ⟨1, r⟩
   | .error r => .error ⟨1, r⟩)

/-- The source's redirectFunction: new Response(null, with the given
status and a headers object holding only Location). It accepts no
configuration object. -/
def redirectFunction (status : Nat) (url : String) : Response :=
  { status := status
    statusText := ""
    headers := [("Location", url)]
    body := none }

/-- The source's noContent: new Response(null, spread of init with
status 204 written after it); init's headers pass through untouched and
no Content-Type default is added. -/
def noContent (init : Init := {}) : Response :=
  { status := 204
    statusText := init.statusText.getD ""
    headers := init.headers
    body := none }

/-- The 200 binding. -/
def ok (data : Mapping) (init : Init := {}) : Response :=
  responseFunction 200 data init

/-- The 201 binding. -/
def created (data : Mapping) (init : Init := {}) : Response :=
  responseFunction 201 data init

/-- The 205 binding. -/
def resetContent (data : Mapping) (init : Init := {}) : Response :=
  responseFunction 205 data init

/-- The 206 binding (named partialContent in the source). -/
def partContent (data : Mapping) (init : Init := {}) : Response :=
  responseFunction 206 data init

/-- The 301 redirect binding. -/
def movedPermanently (url : String) : Response :=
  redirectFunction 301 url

/-- The 302 redirect binding. -/
def found (url : String) : Response :=
  redirectFunction 302 url

/-- The 303 redirect binding. -/
def seeOther (url : String) : Response :=
  redirectFunction 303 url

/-- The 304 redirect binding. -/
def notModified (url : String) : Response :=
  redirectFunction 304 url

/-- The 307 redirect binding. -/
def temporaryRedirect (url : String) : Response :=
  redirectFunction 307 url

/-- The 308 redirect binding. -/
def permanentRedirect (url : String) : Response :=
  redirectFunction 308 url

/-- The 400 binding. -/
def badRequest (data : Mapping) (init : Init := {}) : Response :=
  responseFunction 400 data init

/-- The 401 binding. -/
def unauthorized (data : Mapping) (init : Init := {}) : Response :=
  responseFunction 401 data init

/-- The 403 binding. -/
def forbidden (data : Mapping) (init : Init := {}) : Response :=
  responseFunction 403 data init

/-- The 404 binding. -/
def notFound (data : Mapping) (init : Init := {}) : Response :=
  responseFunction 404 data init

/-- The 405 binding. -/
def methodNotAllowed (data : Mapping) (init : Init := {}) : Response :=
  responseFunction 405 data init

/-- The 406 binding. -/
def notAcceptable (data : Mapping) (init : Init := {}) : Response :=
  responseFunction 406 data init

/-- The 409 binding. -/
def conflict (data : Mapping) (init : Init := {}) : Response :=
  responseFunction 409 data init

/-- The 410 binding. -/
def gone (data : Mapping) (init : Init := {}) : Response :=
  responseFunction 410 data init

/-- The 412 binding. -/
def preconditionFailed (data : Mapping) (init : Init := {}) : Response :=
  responseFunction 412 data init

/-- The 417 binding. -/
def expectationFailed (data : Mapping) (init : Init := {}) : Response :=
  responseFunction 417 data init

/-- The 418 binding. -/
def teapot (data : Mapping) (init : Init := {}) : Response :=
  responseFunction 418 data init

/-- The 428 binding. -/
def preconditionRequired (data : Mapping) (init : Init := {}) : Response :=
  responseFunction 428 data init

/-- The 429 binding. -/
def tooManyRequests (data : Mapping) (init : Init := {}) : Response :=
  responseFunction 429 data init

/-- The 500 binding. -/
def serverError (data : Mapping) (init : Init := {}) : Response :=
  responseFunction 500 data init

/-- The 501 binding. -/
def notImplemented (data : Mapping) (init : Init := {}) : Response :=
  responseFunction 501 data init

/-- The 503 binding. -/
def serviceUnavailable (data : Mapping) (init : Init := {}) : Response :=
  responseFunction 503 data init

/-- A JS call of a redirect binding with an extra configuration
argument: the bound redirectFunction declares no parameter after url,
so the extra argument is dropped by JS call semantics and the result is
exactly the plain redirect. -/
def movedPermanentlyWithInit (url : String) (_init : Init) : Response :=
  movedPermanently url

/-- The settled payload of one entry: the fulfilled value, or the
rejection reason for a rejected outcome. -/
def entryValue (e : Entry) : Val :=
  match settleEntry e with
  | .fulfilled v => v
  | .rejected r => r

theorem resolvedMap_eq (data : Mapping) :
    resolvedMap data = data.map (fun p => (p.1, entryValue p.2)) := by
  unfold resolvedMap entryValue
  rfl

theorem hash_of_allFulfilled (data : Mapping) (h : allFulfilled data = true) :
    hash data = some (resolvedMap data) := by
  induction data with
  | nil => rfl
  | cons p ps ih =>
    simp only [allFulfilled, List.all_cons, Bool.and_eq_true] at h
    simp only [hash, resolvedMap, List.map_cons]
    cases hc : settleEntry p.2 with
    | fulfilled v =>
      have := ih (by simpa [allFulfilled] using h.2)
      simp only [resolvedMap] at this
      simp [this, hc]
    | rejected r =>
      rw [hc] at h
      simp at h

theorem hash_of_not_allFulfilled (data : Mapping) (h : allFulfilled data = false) :
    hash data = none := by
  induction data with
  | nil => simp [allFulfilled] at h
  | cons p ps ih =>
    simp only [allFulfilled, List.all_cons, Bool.and_eq_false_iff] at h
    simp only [hash]
    cases hc : settleEntry p.2 with
    | fulfilled v =>
      rw [hc] at h
      rcases h with h | h
      · simp at h
      · rw [ih (by simpa [allFulfilled] using h)]
        rfl
    | rejected r => rfl

theorem hashSettled_of_hash (data : Mapping) (m : List (String × Val))
    (h : hash data = some m) :
    hashSettled data = m.map (fun p => (p.1, recordVal (Outcome.fulfilled p.2))) := by
  induction data generalizing m with
  | nil =>
    simp only [hash, Option.some.injEq] at h
    subst h
    rfl
  | cons p ps ih =>
    simp only [hash] at h
    cases hc : settleEntry p.2 with
    | fulfilled v =>
      rw [hc] at h
      cases hm : hash ps with
      | none => rw [hm] at h; simp at h
      | some m' =>
        rw [hm] at h
        simp only [Option.map_some', Option.some.injEq] at h
        subst h
        have hps := ih m' hm
        simp only [hashSettled, List.map_cons, hc] at hps ⊢
        rw [hps]
    | rejected r => rw [hc] at h; simp at h

theorem replaceErrorsFields_eq_map (fs : List (String × Val)) :
    replaceErrorsFields fs = fs.map (fun p => (p.1, replaceErrors p.2)) := by
  induction fs with
  | nil => rfl
  | cons p ps ih => simp [replaceErrorsFields, ih]

theorem lookup_map_setKey (l : List (String × String)) (k v : String)
    (hany : l.any (fun p => p.1 = k) = true) :
    List.lookup k (l.map (fun p => if p.1 = k then (k, v) else p)) = some v := by
  induction l with
  | nil => simp at hany
  | cons p ps ih =>
    simp only [List.map_cons]
    by_cases hp : p.1 = k
    · rw [if_pos hp]
      simp [List.lookup]
    · rw [if_neg hp]
      have hk : (k == p.1) = false := by
        simp only [beq_eq_false_iff_ne, ne_eq]
        exact fun e => hp e.symm
      simp only [List.any_cons, Bool.or_eq_true, decide_eq_true_eq] at hany
      rcases hany with h | h
      · exact absurd h hp
      · simp only [List.lookup, hk]
        exact ih h

theorem lookup_append_setKey (l : List (String × String)) (k v : String)
    (hany : l.any (fun p => p.1 = k) = false) :
    List.lookup k (l ++ [(k, v)]) = some v := by
  induction l with
  | nil => simp [List.lookup]
  | cons p ps ih =>
    rw [List.any_cons] at hany
    obtain ⟨h1, h2⟩ := Bool.or_eq_false_iff.mp hany
    have hp : ¬p.1 = k := by simpa using h1
    have hk : (k == p.1) = false := by
      simp only [beq_eq_false_iff_ne, ne_eq]
      exact fun e => hp e.symm
    simp only [List.cons_append, List.lookup, hk]
    exact ih h2

theorem lookup_setKey (l : List (String × String)) (k v : String) :
    List.lookup k (setKey l k v) = some v := by
  unfold setKey
  cases hany : l.any (fun p => p.1 = k) with
  | true =>
    rw [if_pos rfl]
    exact lookup_map_setKey l k v hany
  | false =>
    rw [if_neg Bool.false_ne_true]
    exact lookup_append_setKey l k v hany

theorem mem_setKey_of_ne (l : List (String × String)) (key val k v : String)
    (hmem : (k, v) ∈ l) (hne : k ≠ key) :
    (k, v) ∈ setKey l key val := by
  unfold setKey
  split
  · refine List.mem_map.mpr ⟨(k, v), hmem, ?_⟩
    simp [hne]
  · exact List.mem_append_left _ hmem

mutual
theorem replaceErrors_of_errFree (v : Val) (h : errFree v = true) :
    replaceErrors v = v := by
  cases v with
  | null => rfl
  | bool b => rfl
  | num n => rfl
  | str s => rfl
  | err n m => simp [errFree] at h
  | arr xs =>
    rw [replaceErrors, replaceErrorsList_of_errFree xs (by simpa [errFree] using h)]
  | obj fs =>
    rw [replaceErrors, replaceErrorsFields_of_errFree fs (by simpa [errFree] using h)]

theorem replaceErrorsList_of_errFree (xs : List Val) (h : errFreeList xs = true) :
    replaceErrorsList xs = xs := by
  cases xs with
  | nil => rfl
  | cons x rest =>
    rw [errFreeList, Bool.and_eq_true] at h
    rw [replaceErrorsList, replaceErrors_of_errFree x h.1,
      replaceErrorsList_of_errFree rest h.2]

theorem replaceErrorsFields_of_errFree (fs : List (String × Val))
    (h : errFreeFields fs = true) :
    replaceErrorsFields fs = fs := by
  cases fs with
  | nil => rfl
  | cons p rest =>
    rw [errFreeFields, Bool.and_eq_true] at h
    rw [replaceErrorsFields, replaceErrors_of_errFree p.2 h.1,
      replaceErrorsFields_of_errFree rest h.2]
end

/-- C1: for every Field Mapping whose pending computations all fulfill,
awaiting the response of a mapping-based operation yields a new response
whose status equals the operation's fixed status code and whose body is
the JSON encoding of the mapping with each pending computation replaced
by its fulfilled value (non-pending values, which settleEntry treats as
already fulfilled with themselves, pass through unchanged). -/
theorem await_all_fulfilled_gives_resolved_body (status : Nat) (data : Mapping)
    (init : Init) (h : allFulfilled data = true) :
    ∃ r, awaitResponse status data init = .ok r ∧
      r.status = status ∧
      r.body = some (encode (.obj (resolvedMap data))) := by
  refine ⟨makeResponse status (some (encode (.obj (resolvedMap data)))) init, ?_, rfl, rfl⟩
  unfold awaitResponse
  rw [hash_of_allFulfilled data h]

/-- Witness for C1: the mapping with a plain value and two fulfilled
promises, awaited under ok's status 200. -/
theorem await_all_fulfilled_gives_resolved_body_witness :
    ∃ r, awaitResponse 200
        [("a", .plain (.str "a")),
         ("b", .pending (.fulfilled (.str "b"))),
         ("c", .pending (.fulfilled (.num 3)))] {} = .ok r ∧
      r.status = 200 ∧
      r.body = some (encode (.obj (resolvedMap
        [("a", .plain (.str "a")),
         ("b", .pending (.fulfilled (.str "b"))),
         ("c", .pending (.fulfilled (.num 3)))]))) :=
  await_all_fulfilled_gives_resolved_body 200 _ {} (by rfl)

/-- C8: for the empty Field Mapping both settlement policies succeed and
produce the empty result mapping: hash returns the empty mapping without
failing, hashSettled returns the empty mapping of settlement records. -/
theorem empty_mapping_settles_empty :
    hash ([] : Mapping) = some [] ∧ hashSettled ([] : Mapping) = [] :=
  ⟨rfl, rfl⟩

/-- C9: the two settlement runs of one Deferred Response agree in
content. When the await-path fail-fast run succeeds with a result
mapping, the settle-each run (the provisional-body run) observes for
every key the fulfilled record of exactly the same value; when the
fail-fast run fails, the await path falls back to the very settle-each
result the provisional run serializes, so the rejection body equals the
provisional body. The runs may differ in shape and timing, never in the
settled outcome observed per key. -/
theorem settlement_runs_agree (status : Nat) (init : Init) (data : Mapping) :
    (∀ m, hash data = some m →
      hashSettled data = m.map (fun p => (p.1, recordVal (Outcome.fulfilled p.2)))) ∧
    (hash data = none →
      ∃ r, awaitResponse status data init = .error r ∧
        r.body = (responseFunction status data init).body) := by
  constructor
  · exact fun m hm => hashSettled_of_hash data m hm
  · intro hnone
    refine ⟨makeResponse 500 (some (settledBody data)) init, ?_, rfl⟩
    unfold awaitResponse
    rw [hnone]

/-- Witness for C9: on a mapping with one fulfilled promise the
fail-fast result and the settle-each records carry the same value. -/
theorem settlement_runs_agree_witness :
    hashSettled [("a", .pending (.fulfilled (.str "a")))] =
      [("a", Val.str "a")].map (fun p => (p.1, recordVal (Outcome.fulfilled p.2))) :=
  (settlement_runs_agree 200 {} _).1 [("a", .str "a")] (by rfl)

/-- C5: every redirect operation returns a response with no body, a
Location header exactly equal to the input URL string, and its fixed
status code: 301, 302, 303, 304, 307 and 308 respectively. -/
theorem redirects_fix_status_location_no_body (url : String) :
    movedPermanently url =
      { status := 301, statusText := "", headers := [("Location", url)], body := none } ∧
    found url =
      { status := 302, statusText := "", headers := [("Location", url)], body := none } ∧
    seeOther url =
      { status := 303, statusText := "", headers := [("Location", url)], body := none } ∧
    notModified url =
      { status := 304, statusText := "", headers := [("Location", url)], body := none } ∧
    temporaryRedirect url =
      { status := 307, statusText := "", headers := [("Location", url)], body := none } ∧
    permanentRedirect url =
      { status := 308, statusText := "", headers := [("Location", url)], body := none } :=
  ⟨rfl, rfl, rfl, rfl, rfl, rfl⟩

/-- C7: the await path never mutates the originally-constructed
response: in every case (also when a pending computation fails) the
original keeps the status fixed at construction and equals the value
responseFunction built, while the response the await path produces —
the resolved response or the 500 rejection response — comes from a
fresh Response allocation distinct from the original. -/
theorem await_path_never_mutates_original (status : Nat) (data : Mapping)
    (init : Init) :
    (buildDeferred status data init).1.val.status = status ∧
    (buildDeferred status data init).1.val = responseFunction status data init ∧
    (∀ r, (buildDeferred status data init).2 = .ok r →
      r.id ≠ (buildDeferred status data init).1.id) ∧
    (∀ r, (buildDeferred status data init).2 = .error r →
      r.id ≠ (buildDeferred status data init).1.id ∧ r.val.status = 500) := by
  refine ⟨rfl, rfl, ?_, ?_⟩ <;>
    · intro r hr
      unfold buildDeferred awaitResponse at hr ⊢
      cases hh : hash data <;> rw [hh] at hr <;> simp_all <;> simp [← hr, makeResponse]

/-- Witness for C7: a failing mapping; the rejection response is a
distinct allocation with status 500 while the original keeps 200. -/
theorem await_path_never_mutates_original_witness :
    (buildDeferred 200 [("a", .pending (.rejected (.str "a")))] {}).1.val.status = 200 ∧
    ((buildDeferred 200 [("a", .pending (.rejected (.str "a")))] {}).2 =
        .error ⟨1, makeResponse 500
          (some (settledBody [("a", .pending (.rejected (.str "a")))])) {}⟩ →
      (1 : Nat) ≠ (buildDeferred 200 [("a", .pending (.rejected (.str "a")))] {}).1.id) :=
  ⟨(await_path_never_mutates_original 200 _ {}).1,
   fun hr => ((await_path_never_mutates_original 200 _ {}).2.2.2 _ hr).1⟩

/-- C10: makeResponse writes status and Content-Type after spreading the
caller's init and headers, so for every configuration — also one
carrying its own (type-forbidden) status field or its own Content-Type
entry — the produced response of a mapping-based operation has the
operation's fixed status, its Content-Type header is exactly
application/json; charset=utf-8, and every other caller-supplied header
entry is preserved. -/
theorem init_cannot_override_status_or_content_type (status : Nat) (data : Mapping)
    (init : Init) :
    (responseFunction status data init).status = status ∧
    List.lookup "Content-Type" (responseFunction status data init).headers =
      some "application/json; charset=utf-8" ∧
    (∀ k v, (k, v) ∈ init.headers → k ≠ "Content-Type" →
      (k, v) ∈ (responseFunction status data init).headers) := by
  refine ⟨rfl, lookup_setKey init.headers _ _, ?_⟩
  intro k v hmem hne
  exact mem_setKey_of_ne init.headers _ _ k v hmem hne

/-- Witness for C10: an init that tries to override both status and
Content-Type and carries one extra header entry. -/
theorem init_cannot_override_status_or_content_type_witness :
    (responseFunction 200 []
        { headers := [("Content-Type", "text/html"), ("X-Custom", "1")],
          statusText := none, status := some 404 }).status = 200 ∧
    ("X-Custom", "1") ∈ (responseFunction 200 []
        { headers := [("Content-Type", "text/html"), ("X-Custom", "1")],
          statusText := none, status := some 404 }).headers :=
  ⟨(init_cannot_override_status_or_content_type 200 [] _).1,
   (init_cannot_override_status_or_content_type 200 [] _).2.2 "X-Custom" "1"
     (by simp) (by decide)⟩

/-- C2: for every Field Mapping with duplicate-free keys (a JS object
cannot repeat a key) in which at least one pending computation fails,
awaiting the response of a mapping-based operation rejects, and the
rejection value is a response of status 500 whose body is the JSON
serialization (with errorReplacer) of the settle-each result, which
holds for every key of the mapping exactly one settlement record —
recordVal producing status fulfilled with the value for fulfilled keys
and status rejected with the reason for failed keys. -/
theorem await_rejection_is_500_settle_each (status : Nat) (data : Mapping)
    (init : Init) (h : allFulfilled data = false)
    (hnd : (data.map Prod.fst).Nodup) :
    ∃ r, awaitResponse status data init = .error r ∧
      r.status = 500 ∧
      r.body = some (encode (replaceErrors (.obj (hashSettled data)))) ∧
      (∀ p ∈ data, (p.1, recordVal (settleEntry p.2)) ∈ hashSettled data) ∧
      (∀ k ∈ data.map Prod.fst,
        (hashSettled data).countP (fun q => q.1 == k) = 1) := by
  refine ⟨makeResponse 500 (some (settledBody data)) init, ?_, rfl, rfl, ?_, ?_⟩
  · unfold awaitResponse
    rw [hash_of_not_allFulfilled data h]
  · intro p hp
    exact List.mem_map_of_mem _ hp
  · intro k hk
    unfold hashSettled
    rw [List.countP_map]
    have hkeys : data.countP (fun p => p.1 == k) =
        (data.map Prod.fst).count k := by
      rw [List.count_eq_countP, List.countP_map]
      rfl
    calc data.countP ((fun q => q.1 == k) ∘ fun p => (p.1, recordVal (settleEntry p.2)))
        = data.countP (fun p => p.1 == k) := rfl
      _ = (data.map Prod.fst).count k := hkeys
      _ = 1 := List.count_eq_one_of_mem hnd hk

/-- Witness for C2: a mapping with one fulfilled and one rejected
promise, awaited under ok's status 200, rejects with the 500 settle-each
response. -/
theorem await_rejection_is_500_settle_each_witness :
    ∃ r, awaitResponse 200
        [("a", .pending (.fulfilled (.str "a"))),
         ("b", .pending (.rejected (.str "b")))] {} = .error r ∧
      r.status = 500 ∧
      r.body = some (encode (replaceErrors (.obj (hashSettled
        [("a", .pending (.fulfilled (.str "a"))),
         ("b", .pending (.rejected (.str "b")))])))) ∧
      (∀ p ∈ ([("a", .pending (.fulfilled (.str "a"))),
               ("b", .pending (.rejected (.str "b")))] : Mapping),
        (p.1, recordVal (settleEntry p.2)) ∈ hashSettled
          [("a", .pending (.fulfilled (.str "a"))),
           ("b", .pending (.rejected (.str "b")))]) ∧
      (∀ k ∈ ([("a", .pending (.fulfilled (.str "a"))),
               ("b", .pending (.rejected (.str "b")))] : Mapping).map Prod.fst,
        (hashSettled [("a", .pending (.fulfilled (.str "a"))),
                      ("b", .pending (.rejected (.str "b")))]).countP
          (fun q => q.1 == k) = 1) :=
  await_rejection_is_500_settle_each 200 _ {} (by rfl) (by simp)

theorem settled_fields_of_noPending (data : Mapping) (h : noPending data = true) :
    replaceErrorsFields (hashSettled data) =
      data.map (fun p => (p.1, Val.obj [("status", Val.str "fulfilled"),
        ("value", replaceErrors (entryValue p.2))])) := by
  induction data with
  | nil => rfl
  | cons p ps ih =>
    simp only [noPending, List.all_cons, Bool.and_eq_true] at h
    obtain ⟨h1, h2⟩ := h
    have ht := ih (by simpa [noPending] using h2)
    cases hp : p.2 with
    | plain v =>
      simp only [hashSettled, List.map_cons, replaceErrorsFields] at ht ⊢
      rw [hp, ht]
      rfl
    | pending o =>
      rw [hp] at h1
      simp at h1

/-- C3 counterexample: the claim says the unawaited response's body is
the JSON encoding of the mapping verbatim; for the operation ok on the
promise-free mapping a ↦ "x" the provisional stream body is the
settle-each serialization, which differs from the verbatim encoding. -/
theorem unawaited_body_not_verbatim :
    (ok [("a", Entry.plain (Val.str "x"))]).body ≠
      some (encode (Val.obj [("a", Val.str "x")])) := by
  decide

/-- C3 amended: for every Field Mapping containing no pending
computations, the response returned without awaiting has the
operation's fixed status code, and the body its stream eventually
carries is the settle-each serialization of the mapping — each key
wrapped as a record of status fulfilled with its value (errorReplacer
applied) — not the verbatim encoding. -/
theorem unawaited_body_is_settle_each (status : Nat) (data : Mapping)
    (init : Init) (h : noPending data = true) :
    (responseFunction status data init).status = status ∧
    (responseFunction status data init).body =
      some (encode (Val.obj (data.map (fun p =>
        (p.1, Val.obj [("status", Val.str "fulfilled"),
                       ("value", replaceErrors (entryValue p.2))]))))) := by
  refine ⟨rfl, ?_⟩
  unfold responseFunction makeResponse settledBody settledVal
  rw [replaceErrors, settled_fields_of_noPending data h]

/-- Witness for amended C3: the promise-free mapping a ↦ "x" under ok. -/
theorem unawaited_body_is_settle_each_witness :
    (responseFunction 200 [("a", Entry.plain (Val.str "x"))] {}).status = 200 ∧
    (responseFunction 200 [("a", Entry.plain (Val.str "x"))] {}).body =
      some (encode (Val.obj ([("a", Entry.plain (Val.str "x"))].map (fun p =>
        (p.1, Val.obj [("status", Val.str "fulfilled"),
                       ("value", replaceErrors (entryValue p.2))]))))) :=
  unawaited_body_is_settle_each 200 _ {} (by rfl)

/-- C4 counterexample: the claim says a rejection reason that is not
error-like is serialized as-is; a reason that is a plain object holding
an Error under a key is not error-like, yet errorReplacer is consulted
at every nesting level by JSON.stringify, so the nested Error is
expanded and the serialized body differs from the as-is encoding. -/
theorem reason_with_nested_error_not_as_is :
    settledBody [("a", Entry.pending (Outcome.rejected
        (Val.obj [("cause", Val.err "TypeError" "asdf")])))] ≠
      encode (Val.obj [("a", Val.obj [("status", Val.str "rejected"),
        ("reason", Val.obj [("cause", Val.err "TypeError" "asdf")])])]) := by
  decide

/-- C4 amended: in every serialized settle-each body each rejected key
carries its record with the reason transformed by replaceErrors: an
error-like reason becomes exactly errorReplacer's object, carrying
message, name and isError true; any other reason keeps its own shape
with the same expansion applied to error-like values nested inside it,
and a reason containing no error-like value anywhere is serialized
as-is. -/
theorem rejection_reason_serialization (data : Mapping) (k : String) (r : Val)
    (hmem : (k, Entry.pending (Outcome.rejected r)) ∈ data) :
    settledVal data = Val.obj (replaceErrorsFields (hashSettled data)) ∧
    (k, Val.obj [("status", Val.str "rejected"), ("reason", replaceErrors r)]) ∈
      replaceErrorsFields (hashSettled data) ∧
    (∀ n m, r = Val.err n m →
      replaceErrors r =
        Val.obj [("message", Val.str m), ("name", Val.str n),
                 ("isError", Val.bool true)] ∧
      replaceErrors r = errorReplacer r) ∧
    (errFree r = true → replaceErrors r = r) := by
  refine ⟨rfl, ?_, ?_, replaceErrors_of_errFree r⟩
  · rw [replaceErrorsFields_eq_map]
    have h1 : (k, recordVal (Outcome.rejected r)) ∈ hashSettled data := by
      unfold hashSettled
      exact List.mem_map_of_mem _ hmem
    exact List.mem_map.mpr ⟨_, h1, rfl⟩
  · intro n m he
    subst he
    exact ⟨rfl, rfl⟩

/-- Witness for amended C4: the scenario of the repository's own test,
a single key rejecting with TypeError "asdf". -/
theorem rejection_reason_serialization_witness :
    settledVal [("a", Entry.pending (Outcome.rejected (Val.err "TypeError" "asdf")))] =
      Val.obj (replaceErrorsFields (hashSettled
        [("a", Entry.pending (Outcome.rejected (Val.err "TypeError" "asdf")))])) ∧
    ("a", Val.obj [("status", Val.str "rejected"),
        ("reason", replaceErrors (Val.err "TypeError" "asdf"))]) ∈
      replaceErrorsFields (hashSettled
        [("a", Entry.pending (Outcome.rejected (Val.err "TypeError" "asdf")))]) ∧
    (∀ n m, Val.err "TypeError" "asdf" = Val.err n m →
      replaceErrors (Val.err "TypeError" "asdf") =
        Val.obj [("message", Val.str m), ("name", Val.str n),
                 ("isError", Val.bool true)] ∧
      replaceErrors (Val.err "TypeError" "asdf") =
        errorReplacer (Val.err "TypeError" "asdf")) ∧
    (errFree (Val.err "TypeError" "asdf") = true →
      replaceErrors (Val.err "TypeError" "asdf") = Val.err "TypeError" "asdf") :=
  rejection_reason_serialization _ "a" _ (List.Mem.head _)

/-- C6 counterexample: the claim extends the configuration contract to
the redirect operations, but redirectFunction declares no parameter
after the url, so a configuration passed to movedPermanently is dropped
and its header entry never appears in the produced headers. -/
theorem redirect_ignores_config_headers :
    ("X-Custom", "1") ∉ (movedPermanentlyWithInit "https://www.example.com"
      { headers := [("X-Custom", "1")] }).headers := by
  decide

/-- C6 amended: the mapping-based operations and noContent accept an
optional secondary configuration object whose header entries appear in
the produced response's headers (merged with the default Content-Type
for the JSON-bearing mapping operations, passed through verbatim for
noContent); the redirect operations take no configuration object — an
extra argument is ignored and their headers hold exactly the Location
entry. -/
theorem config_headers_mapping_ops_only (status : Nat) (data : Mapping)
    (init : Init) (url : String) :
    (∀ k v, (k, v) ∈ init.headers → k ≠ "Content-Type" →
      (k, v) ∈ (responseFunction status data init).headers) ∧
    (∀ k v, (k, v) ∈ init.headers → (k, v) ∈ (noContent init).headers) ∧
    movedPermanentlyWithInit url init = movedPermanently url ∧
    (movedPermanentlyWithInit url init).headers = [("Location", url)] := by
  refine ⟨?_, ?_, rfl, rfl⟩
  · intro k v hm hne
    exact mem_setKey_of_ne _ _ _ _ _ hm hne
  · intro k v hm
    exact hm

/-- Witness for amended C6: one extra header entry supplied to the 201
binding's configuration appears in the produced headers. -/
theorem config_headers_mapping_ops_only_witness :
    ("X-Extra", "2") ∈ (responseFunction 201 []
      { headers := [("X-Extra", "2")] }).headers :=
  (config_headers_mapping_ops_only 201 [] { headers := [("X-Extra", "2")] } "u").1
    "X-Extra" "2" (by simp) (by decide)

end RemixResponse
